import Mathlib

/-!
Shallow embedding of the scheduling core of the cog-task runner: the sync and
async signal processors (src/scheduler/processor.rs), the Scheduler tick and
teardown logic (src/scheduler/mod.rs), and the stream-worker decode protocol
(src/action/include/stream.rs together with src/resource/stream/gst.rs).

Machine-level details that the claims do not depend on (wall-clock sleeping,
GStreamer internals, egui rendering) are abstracted; the control flow, the
pushed signals and their order are translated directly from the source.
-/

/-- Error values (src/error.rs variants used by the scheduling core). -/
inductive Err where
  | flowError (msg : String)
  | internalError (msg : String)
  | taskDefinitionError (msg : String)
  | invalidResourceError (msg : String)
deriving DecidableEq, Repr

/-- Equality of `Except` values is decidable when it is on both sides. -/
instance instDecEqExcept {ε α : Type} [DecidableEq ε] [DecidableEq α] :
    DecidableEq (Except ε α) := fun a b =>
  match a, b with
  | .ok x, .ok y =>
      if h : x = y then .isTrue (by subst h; rfl)
      else .isFalse (fun c => h (Except.ok.inj c))
  | .ok _, .error _ => .isFalse (fun c => Except.noConfusion c)
  | .error _, .ok _ => .isFalse (fun c => Except.noConfusion c)
  | .error e, .error f =>
      if h : e = f then .isTrue (by subst h; rfl)
      else .isFalse (fun c => h (Except.error.inj c))

/-- Keyboard keys (egui::Key) are kept abstract as strings. -/
abbrev Key := String

/-- One structured log entry: a field name and a rendered value. -/
abbrev LogEntry := String × String

/-- `LoggerSignal` (log events sent towards the async queue). -/
inductive LoggerSignal where
  | append (group : String) (entry : LogEntry)
  | extend (group : String) (entries : List LogEntry)
deriving DecidableEq, Repr

/-- `ServerSignal` notifications produced by the core (src/server). -/
inductive ServerSignal where
  | blockFinished
  | blockInterrupted
  | blockCrashed (e : Err)
  | syncComplete (r : Except Err Unit)
  | asyncComplete (r : Except Err Unit)

/-- `SyncSignal` (src/scheduler/processor.rs 37-42). -/
inductive SyncSignal where
  | updateGraph
  | keyPress (keys : List Key)
  | finish
deriving DecidableEq, Repr

/-- `AsyncSignal` (src/scheduler/processor.rs 24-28); the timestamp is a
millisecond count. -/
inductive AsyncSignal where
  | logger (time : Nat) (s : LoggerSignal)
  | finish
deriving DecidableEq, Repr

/-- A push performed by the Sync Processor: either a log event towards the
async queue or a notification towards the server queue. -/
inductive SyncEffect where
  | toAsync (s : LoggerSignal)
  | toServer (s : ServerSignal)

/-- One stateful action instance as seen by the Sync Processor: its CAP_KEYS
capability flag (props), and the list of key sets delivered to it as
`KeyPress` update events (instrumentation recording deliveries). -/
structure ActionNode where
  capKeys : Bool
  keyEvents : List (List Key)
deriving DecidableEq, Repr

/-- The action tree behind the mutex: the result of `inner().is_over()` on the
root and the collection of actions (with their CAP_KEYS flags). -/
structure ATree where
  isOver : Except Err Bool
  actions : List ActionNode

/-- `SyncProcessor::update_graph` (src/scheduler/processor.rs 154-168): lock
the tree; if the root reports over, push a "finish" log append and a
`BlockFinished` notification. -/
def update_graph (tree : ATree) : Except Err (List SyncEffect) :=
  match tree.isOver with
  | .error e => .error e
  | .ok true =>
      .ok [.toAsync (.append "mainevent" ("finish", "Success")),
           .toServer .blockFinished]
  | .ok false => .ok []

/-- `SyncProcessor::update_keypress` (src/scheduler/processor.rs 170-186): the
whole forwarding body is commented out in the source; the function ignores the
keys, changes nothing, pushes nothing and returns `Ok(())`. -/
def update_keypress (tree : ATree) (_keys : List Key) :
    Except Err (ATree × List SyncEffect) :=
  .ok (tree, [])

/-- The `KeyPress` delivery described by the specification (spec 4.2), stated
for comparison with `update_keypress`: every action flagged CAP_KEYS receives
the key set as one update event. -/
def update_keypress_specified (tree : ATree) (keys : List Key) :
    ATree × List SyncEffect :=
  ({ tree with
      actions := tree.actions.map fun a =>
        if a.capKeys then { a with keyEvents := a.keyEvents ++ [keys] } else a },
   [])

/-- The Sync Processor loop (src/scheduler/processor.rs 116-128) consuming a
list of popped signals: `Finish` (or a closed queue) exits the loop and pushes
`SyncComplete(Ok(()))`; an error from a non-terminal handler pushes
`BlockCrashed` and the loop continues. -/
def runSync (tree : ATree) : List SyncSignal → ATree × List SyncEffect
  | [] => (tree, [.toServer (.syncComplete (.ok ()))])
  | .finish :: _ => (tree, [.toServer (.syncComplete (.ok ()))])
  | .updateGraph :: rest =>
      match update_graph tree with
      | .ok effs =>
          let r := runSync tree rest
          (r.1, effs ++ r.2)
      | .error e =>
          let r := runSync tree rest
          (r.1, .toServer (.blockCrashed e) :: r.2)
  | .keyPress keys :: rest =>
      match update_keypress tree keys with
      | .ok (tree2, effs) =>
          let r := runSync tree2 rest
          (r.1, effs ++ r.2)
      | .error e =>
          let r := runSync tree rest
          (r.1, .toServer (.blockCrashed e) :: r.2)

/-- The full Sync Processor thread (src/scheduler/processor.rs 113-129):
`init` pushes a "start" log append before the loop starts. -/
def syncProcessorRun (tree : ATree) (sigs : List SyncSignal) :
    ATree × List SyncEffect :=
  let r := runSync tree sigs
  (r.1, .toAsync (.append "mainevent" ("start", "Success")) :: r.2)

/-- Discriminator for `BlockFinished` pushes. -/
def isBlockFinished : SyncEffect → Bool
  | .toServer .blockFinished => true
  | _ => false

/-- Discriminator for `SyncComplete` pushes. -/
def isSyncComplete : SyncEffect → Bool
  | .toServer (.syncComplete _) => true
  | _ => false

/-- Number of `BlockFinished` notifications in a list of effects. -/
def countBlockFinished (es : List SyncEffect) : Nat := es.countP isBlockFinished

/-- Number of `SyncComplete` acknowledgements in a list of effects. -/
def countSyncComplete (es : List SyncEffect) : Nat := es.countP isSyncComplete

/-- Number of `UpdateGraph` signals a run will actually process: those before
the first `Finish`. -/
def liveUpdateGraphs : List SyncSignal → Nat
  | [] => 0
  | .finish :: _ => 0
  | .updateGraph :: rest => liveUpdateGraphs rest + 1
  | .keyPress _ :: rest => liveUpdateGraphs rest

/-- Total number of key-set deliveries recorded across the tree's actions. -/
def keyDeliveries (t : ATree) : Nat :=
  (t.actions.map fun a => a.keyEvents.length).sum

/-- A tree whose root is over from the start. -/
def overTree : ATree := { isOver := .ok true, actions := [] }

/-- A tree with a single CAP_KEYS action that has received no key events. -/
def capTree : ATree :=
  { isOver := .ok false, actions := [{ capKeys := true, keyEvents := [] }] }

/-- A tree whose `is_over` check fails with a flow error. -/
def errTree : ATree :=
  { isOver := .error (.flowError "broken root"), actions := [] }

/-- Exit status of the Async Processor thread: either it terminated by
panicking on `.unwrap()` of a logger error, or it left the loop cleanly and
pushed `AsyncComplete` with the logger's flush result. -/
inductive AsyncExit (L : Type) where
  | died (e : Err)
  | completed (finalLogger : L) (reported : Except Err Unit)

/-- The Async Processor loop (src/scheduler/processor.rs 71-85), generic over
the logger state `L`, its `update` function and its `finish` flush. Returns the
logger signals that were handled successfully before the loop ended, together
with the exit status. A logger error is `.unwrap()`ed in the source, so it
kills the thread: nothing further is popped and nothing is reported. -/
def runAsync {L : Type} (upd : L → Nat → LoggerSignal → Except Err L)
    (fin : L → Except Err Unit) :
    L → List AsyncSignal → List AsyncSignal × AsyncExit L
  | lg, [] => ([], .completed lg (fin lg))
  | lg, .finish :: _ => ([], .completed lg (fin lg))
  | lg, .logger t s :: rest =>
      match upd lg t s with
      | .ok lg2 =>
          let r := runAsync upd fin lg2 rest
          (.logger t s :: r.1, r.2)
      | .error e => ([], .died e)

/-- A persistence sink model used to instantiate `runAsync`: it accumulates
entries and fails on a designated poison group. -/
def sinkUpd (lg : List (Nat × LoggerSignal)) (t : Nat) (s : LoggerSignal) :
    Except Err (List (Nat × LoggerSignal)) :=
  match s with
  | .append g _ =>
      if g = "poison" then .error (.internalError "sink write failed")
      else .ok (lg ++ [(t, s)])
  | .extend g _ =>
      if g = "poison" then .error (.internalError "sink write failed")
      else .ok (lg ++ [(t, s)])

/-- Flush model for the sink: always succeeds. -/
def sinkFin (_lg : List (Nat × LoggerSignal)) : Except Err Unit := .ok ()

/-- Messages found on the GStreamer bus (gst.rs 267-275 reads them). -/
inductive BusMsg where
  | errorMsg (e : Err)
  | eosMsg
  | otherMsg
deriving DecidableEq, Repr

/-- The GStreamer-backed stream handle (src/resource/stream/gst.rs): the
`is_eos` and `paused` flags, the pending bus messages, and an instrumentation
counter of `restart` calls. -/
structure GStream where
  is_eos : Bool
  paused : Bool
  bus : List BusMsg
  restarts : Nat
deriving DecidableEq, Repr

/-- `Stream::eos` (gst.rs 153-156): return the `is_eos` flag. -/
def GStream.eos (s : GStream) : Bool := s.is_eos

/-- `Stream::restart` (gst.rs 200-209): clear `is_eos`, seek to the first
frame and unpause. Seeking and state changes are modelled as succeeding. -/
def GStream.restart (s : GStream) : GStream :=
  { s with is_eos := false, paused := false, restarts := s.restarts + 1 }

/-- Draining the bus iterator (gst.rs 267-275): stop at the first error
message, otherwise report whether an end-of-stream message was seen. Returns
the result and the messages left on the bus. -/
def drainBus : List BusMsg → Except Err Bool × List BusMsg
  | [] => (.ok false, [])
  | .errorMsg e :: rest => (.error e, rest)
  | .eosMsg :: rest =>
      match drainBus rest with
      | (.error e, rem) => (.error e, rem)
      | (.ok _, rem) => (.ok true, rem)
  | .otherMsg :: rest => drainBus rest

/-- `Stream::process_bus` (gst.rs 264-287): drain the bus; on end-of-stream
with looping, restart and return `Ok(false)`; on end-of-stream without
looping, set `is_eos`, pause and return `Ok(true)`; otherwise return the
current `is_eos`. -/
def GStream.process_bus (s : GStream) (looping : Bool) :
    Except Err Bool × GStream :=
  match drainBus s.bus with
  | (.error e, rem) => (.error e, { s with bus := rem })
  | (.ok eosSeen, rem) =>
      let s2 : GStream := { s with bus := rem }
      if eosSeen && looping then (.ok false, s2.restart)
      else if eosSeen then
        (.ok true, { s2 with is_eos := true, paused := true })
      else (.ok s2.is_eos, s2)

/-- External circumstances of one decode-loop iteration: whether the start
channel reports disconnection on the non-blocking poll, and whether `stop` or
drop wrote `Ok(true)` into the shared `done` cell before this iteration takes
the lock. -/
structure IterEnv where
  stopDisconnected : Bool
  extSet : Bool
deriving DecidableEq, Repr

/-- How the decode loop ended. `fuelOut` means the supplied environment list
ran out while the loop was still going (a model artifact standing for a loop
that is still running). -/
inductive DecExit where
  | stopDisconnect
  | doneTrue
  | fuelOut
deriving DecidableEq, Repr

/-- Result of running the decode loop: final stream state, final `done` cell,
number of iterations that entered the loop body, and the way the loop ended. -/
structure DecodeResult where
  stream : GStream
  done : Except Err Bool
  iters : Nat
  exit : DecExit

/-- The `if let Ok(true) = *done` test (stream.rs 122). -/
def isOkTrue : Except Err Bool → Bool
  | .ok true => true
  | _ => false

/-- The decode-thread loop (src/action/include/stream.rs 108-125): poll the
start channel for disconnection (pause and break if so); sleep one period;
lock `done`; evaluate `(stream.eos(), stream.process_bus(looping))` and record
the outcome into `done`; break if `done` is `Ok(true)`. -/
def decodeLoop (looping : Bool) :
    List IterEnv → GStream → Except Err Bool → DecodeResult
  | [], s, d => ⟨s, d, 0, .fuelOut⟩
  | env :: envs, s, d =>
      if env.stopDisconnected then
        ⟨{ s with paused := true }, d, 1, .stopDisconnect⟩
      else
        let d1 := if env.extSet then .ok true else d
        let atEos := s.eos
        let pb := s.process_bus looping
        let d2 : Except Err Bool :=
          if atEos then .ok true
          else
            match pb.1 with
            | .ok true => .ok true
            | .error err => .error err
            | .ok false => d1
        if isOkTrue d2 then ⟨pb.2, d2, 1, .doneTrue⟩
        else
          let r := decodeLoop looping envs pb.2 d2
          ⟨r.stream, r.done, r.iters + 1, r.exit⟩

/-- Sleep period chosen for the decode loop (stream.rs 88-93), in seconds:
`0.5 / framerate` when the stream has video, otherwise 5 milliseconds. -/
def decodePeriod (hasVideo : Bool) (framerate : ℚ) : ℚ :=
  if hasVideo then 1 / 2 / framerate else 5 / 1000

/-- Abstract steps of one decode-loop iteration, in execution order. -/
inductive LoopStep where
  | pollStop
  | sleepFor (seconds : ℚ)
  | advanceDecoder
  | pauseStream
deriving DecidableEq, Repr

/-- Order of operations in one decode-loop iteration (stream.rs 108-125): the
non-blocking stop poll comes first; if it reports disconnection the stream is
paused and the loop breaks; otherwise the thread sleeps one period and then
advances the decoder via `process_bus`. -/
def iterSteps (hasVideo : Bool) (framerate : ℚ) (disconnected : Bool) :
    List LoopStep :=
  if disconnected then [.pollStop, .pauseStream]
  else [.pollStop, .sleepFor (decodePeriod hasVideo framerate), .advanceDecoder]

/-- The fields of `StatefulStream` (stream.rs 36-43) that the start/stop/drop
protocol manipulates: the shared `done` cell, the one-shot channel pair and
the decode-thread join handle (both `Option`s consumed by `take`). -/
structure SStream where
  done : Except Err Bool
  link : Option Unit
  joinHandle : Option Unit
deriving DecidableEq, Repr

/-- Side effects of `StatefulStream::start`. -/
inductive StartEffect where
  | sendStartTrigger
  | spawnSupervisor
deriving DecidableEq, Repr

/-- `StatefulStream::start` (stream.rs 163-204): take the link (error if it is
gone), send the start trigger, take the join handle (error if it is gone) and
spawn the supervising thread. Returns the mutated state, the effects that
happened, and the call's result. -/
def SStream.start (st : SStream) : SStream × List StartEffect × Except Err Unit :=
  match st.link with
  | none =>
      (st, [],
       .error (.internalError "Link to streaming thread could not be acquired"))
  | some _ =>
      let st1 : SStream := { st with link := none }
      match st1.joinHandle with
      | none =>
          (st1, [.sendStartTrigger],
           .error (.internalError "JoinHandle has died prematurely"))
      | some _ =>
          ({ st1 with joinHandle := none },
           [.sendStartTrigger, .spawnSupervisor], .ok ())

/-- `StatefulStream::stop` (stream.rs 233-237): force the shared `done` cell
to `Ok(true)`; never fails. -/
def SStream.stop (st : SStream) : Except Err SStream :=
  .ok { st with done := .ok true }

/-- `Drop for StatefulStream` (stream.rs 250-257): call `stop`; if it returns
an error, print it and `exit(2)`. The boolean records whether the process
exited. -/
def SStream.dropRun (st : SStream) : SStream × Bool :=
  match st.stop with
  | .ok st2 => (st2, false)
  | .error _ => (st, true)

/-- Outcome of joining the decode thread from the supervising thread. -/
inductive JoinOutcome where
  | joined (r : Except Err Unit)
  | joinFailed (msg : String)
deriving DecidableEq, Repr

/-- What the supervising thread writes and does (stream.rs 190-201): wait for
the stopped acknowledgement, join the decode thread, record the outcome into
the shared `done` cell and push `UpdateGraph`. Returns the value written to
`done`, whether `UpdateGraph` was pushed, and whether the process exited. -/
def superviseJoin (jo : JoinOutcome) : Except Err Bool × Bool × Bool :=
  match jo with
  | .joined (.ok _) => (.ok true, true, false)
  | .joined (.error e) => (.error e, true, false)
  | .joinFailed m =>
      (.error (.internalError ("Failed to graciously close stream decoder thread: " ++ m)),
       true, false)

/-- Effects of one Scheduler tick or of `request_interrupt`. -/
inductive SchedEffect where
  | logAppend (group : String) (entry : LogEntry)
  | server (s : ServerSignal)
  | repaint

/-- `Scheduler::request_interrupt` (scheduler/mod.rs 107-118): push an
"interrupt: user request" log append, push `BlockInterrupted`, request a
repaint. -/
def request_interrupt_effects : List SchedEffect :=
  [.logAppend "mainevent" ("interrupt", "user request"),
   .server .blockInterrupted, .repaint]

/-- The Escape double-press detector of one tick (scheduler/mod.rs 126-136):
if Escape was pressed this tick, `take` the stored time; if the new press is
strictly within 300 ms of it, fire `request_interrupt` (leaving the stored
time empty); otherwise store the new time. Times are in milliseconds. -/
def escTick (lastEsc : Option Nat) (now : Nat) (escPressed : Bool) :
    Option Nat × Bool :=
  if escPressed then
    match lastEsc with
    | some t => if now - t < 300 then (none, true) else (some now, false)
    | none => (some now, false)
  else (lastEsc, false)

/-- Folding `escTick` over a sequence of ticks `(time, escape-pressed)`,
collecting the interrupt effects emitted along the way. -/
def runEscTicks (lastEsc : Option Nat) :
    List (Nat × Bool) → Option Nat × List SchedEffect
  | [] => (lastEsc, [])
  | (now, esc) :: rest =>
      let step := escTick lastEsc now esc
      let r := runEscTicks step.1 rest
      (r.1, (if step.2 then request_interrupt_effects else []) ++ r.2)

/-- Discriminator for `BlockInterrupted` pushes. -/
def isBlockInterrupted : SchedEffect → Bool
  | .server .blockInterrupted => true
  | _ => false

/-- Discriminator for the "interrupt: user request" log append. -/
def isInterruptLog : SchedEffect → Bool
  | .logAppend g e => g = "mainevent" && e = ("interrupt", "user request")
  | _ => false

/-- Number of `BlockInterrupted` notifications in a list of tick effects. -/
def countInterrupts (es : List SchedEffect) : Nat := es.countP isBlockInterrupted

/-- Number of "interrupt: user request" log appends in a list of tick
effects. -/
def countInterruptLogs (es : List SchedEffect) : Nat := es.countP isInterruptLog

/-- A push performed by the Scheduler onto one of the two queues. A
`LoggerSignal` pushed through the async writer is wrapped into
`AsyncSignal::Logger` stamped with the push time (spec 4.3: entries are
tagged with the timestamp supplied by the producer). -/
inductive QueuePush where
  | toSyncQ (s : SyncSignal)
  | toAsyncQ (s : AsyncSignal)
deriving DecidableEq, Repr

/-- `Drop for Scheduler` (scheduler/mod.rs 177-187): push the "finish: ok" log
append to the async queue, then `Finish` to the sync queue, then `Finish` to
the async queue. `t` is the teardown timestamp attached to the log entry. -/
def schedulerDropPushes (t : Nat) : List QueuePush :=
  [.toAsyncQ (.logger t (.append "mainevent" ("finish", "ok"))),
   .toSyncQ .finish,
   .toAsyncQ .finish]

lemma runSync_keypress (t : ATree) (keys : List Key) (rest : List SyncSignal) :
    runSync t (.keyPress keys :: rest) = runSync t rest := by
  simp [runSync, update_keypress]

lemma runSync_shape (t : ATree) (sigs : List SyncSignal) :
    ∃ pre, (runSync t sigs).2 = pre ++ [.toServer (.syncComplete (.ok ()))] ∧
      countSyncComplete pre = 0 := by
  induction sigs generalizing t with
  | nil => exact ⟨[], rfl, rfl⟩
  | cons s rest ih =>
      cases s with
      | finish => exact ⟨[], rfl, rfl⟩
      | keyPress keys =>
          obtain ⟨pre, hp, hc⟩ := ih t
          exact ⟨pre, by rw [runSync_keypress, hp], hc⟩
      | updateGraph =>
          obtain ⟨pre, hp, hc⟩ := ih t
          cases hover : t.isOver with
          | error e =>
              refine ⟨.toServer (.blockCrashed e) :: pre, ?_, ?_⟩
              · simp [runSync, update_graph, hover, hp]
              · simp [countSyncComplete, isSyncComplete] at hc ⊢
                exact hc
          | ok b =>
              cases b with
              | true =>
                  refine ⟨.toAsync (.append "mainevent" ("finish", "Success")) ::
                    .toServer .blockFinished :: pre, ?_, ?_⟩
                  · simp [runSync, update_graph, hover, hp]
                  · simp [countSyncComplete, isSyncComplete] at hc ⊢
                    exact hc
              | false =>
                  refine ⟨pre, ?_, hc⟩
                  simp [runSync, update_graph, hover, hp]

/-- C1 counterexample: for a tree containing one CAP_KEYS action with no
deliveries yet, processing `KeyPress(["Space"])` delivers the key set to that
action zero times, not once: `update_keypress` leaves the tree untouched,
while the specified behavior would record one delivery. -/
theorem C1_keypress_counterexample :
    (update_keypress capTree ["Space"]).map (fun p => keyDeliveries p.1) = .ok 0 ∧
    ¬ (update_keypress capTree ["Space"]).map (fun p => keyDeliveries p.1) = .ok 1 ∧
    keyDeliveries (update_keypress_specified capTree ["Space"]).1 = 1 := by
  refine ⟨rfl, ?_, rfl⟩
  decide

/-- C1 amended: when the Sync Processor pops a `KeyPress` signal, it does not
forward the keys to any action: the forwarding body of `update_keypress` is
commented out in the source, so the handler leaves the tree unchanged, pushes
no effects and returns `Ok(())`; processing a `KeyPress` signal inside the
loop is a no-op. -/
theorem C1_keypress_is_noop (t : ATree) (keys : List Key)
    (rest : List SyncSignal) :
    update_keypress t keys = .ok (t, []) ∧
    runSync t (.keyPress keys :: rest) = runSync t rest := by
  exact ⟨rfl, runSync_keypress t keys rest⟩

lemma runSync_over_count (t : ATree) (h : t.isOver = .ok true)
    (sigs : List SyncSignal) :
    countBlockFinished (runSync t sigs).2 = liveUpdateGraphs sigs := by
  induction sigs generalizing t with
  | nil => simp [runSync, countBlockFinished, isBlockFinished, liveUpdateGraphs]
  | cons s rest ih =>
      cases s with
      | finish => simp [runSync, countBlockFinished, isBlockFinished, liveUpdateGraphs]
      | keyPress keys =>
          rw [runSync_keypress]
          simp [liveUpdateGraphs, ih t h]
      | updateGraph =>
          have ih2 := ih t h
          simp only [countBlockFinished] at ih2 ⊢
          simp [runSync, update_graph, h, liveUpdateGraphs, List.countP_cons,
            List.countP_append, isBlockFinished, ih2]

/-- C2 counterexample: with a tree whose root is over from construction, the
initial `UpdateGraph` produces one `BlockFinished`, but a second `UpdateGraph`
processed later produces a second `BlockFinished`: the run over
`[UpdateGraph, UpdateGraph, Finish]` pushes two notifications, not one. -/
theorem C2_updategraph_counterexample :
    countBlockFinished (runSync overTree [.updateGraph, .updateGraph, .finish]).2
      = 2 := by
  decide

/-- C2 amended: for a tree whose root is over immediately after construction,
the initial `UpdateGraph` produces exactly one `BlockFinished`, and every
later `UpdateGraph` processed before `Finish` produces exactly one additional
`BlockFinished`: the processor does not deduplicate the notification. -/
theorem C2_blockfinished_per_updategraph (t : ATree) (h : t.isOver = .ok true)
    (sigs : List SyncSignal) :
    countBlockFinished (runSync t (.updateGraph :: sigs)).2
      = 1 + liveUpdateGraphs sigs := by
  have := runSync_over_count t h (.updateGraph :: sigs)
  simpa [liveUpdateGraphs, Nat.add_comm] using this

/-- Witness for C2: the over tree with only the initial `UpdateGraph` yields
exactly one `BlockFinished`. -/
theorem C2_blockfinished_witness :
    countBlockFinished (runSync overTree [.updateGraph]).2 = 1 :=
  C2_blockfinished_per_updategraph overTree rfl []

/-- C3: every run of the Sync Processor loop pushes exactly one `SyncComplete`
acknowledgement, it is the last effect and carries `Ok(())`; and an error from
a non-terminal handler (here `update_graph` failing on `is_over`) pushes
`BlockCrashed` with that error and processing continues with the remaining
signals. -/
theorem C3_crash_continue_and_single_complete (t : ATree)
    (sigs : List SyncSignal) (e : Err) (rest : List SyncSignal) :
    countSyncComplete (runSync t sigs).2 = 1 ∧
    (runSync t sigs).2.getLast? = some (.toServer (.syncComplete (.ok ()))) ∧
    (t.isOver = .error e →
      (runSync t (.updateGraph :: rest)).2
        = .toServer (.blockCrashed e) :: (runSync t rest).2) := by
  obtain ⟨pre, hp, hc⟩ := runSync_shape t sigs
  refine ⟨?_, ?_, ?_⟩
  · rw [hp]
    simp [countSyncComplete, List.countP_append, isSyncComplete] at hc ⊢
    exact hc
  · rw [hp]
    simp
  · intro h
    simp [runSync, update_graph, h]

/-- Witness for C3 at the tree whose `is_over` fails with a flow error. -/
theorem C3_crash_continue_witness :
    countSyncComplete (runSync errTree [.finish]).2 = 1 ∧
    (runSync errTree [.updateGraph]).2
      = .toServer (.blockCrashed (.flowError "broken root"))
        :: (runSync errTree []).2 := by
  refine ⟨(C3_crash_continue_and_single_complete errTree [.finish]
      (.flowError "broken root") []).1, ?_⟩
  exact (C3_crash_continue_and_single_complete errTree [.finish]
      (.flowError "broken root") []).2.2 rfl

/-- C9: Scheduler teardown pushes exactly three signals, in order: the
"finish: ok" log append to the async queue, then `Finish` to the sync queue,
then `Finish` to the async queue — the sync queue is closed before the async
queue. -/
theorem C9_scheduler_drop_order (t : Nat) :
    schedulerDropPushes t
      = [.toAsyncQ (.logger t (.append "mainevent" ("finish", "ok"))),
         .toSyncQ .finish, .toAsyncQ .finish] ∧
    (schedulerDropPushes t).length = 3 ∧
    (schedulerDropPushes t).get? 1 = some (.toSyncQ .finish) ∧
    (schedulerDropPushes t).get? 2 = some (.toAsyncQ .finish) :=
  ⟨rfl, rfl, rfl, rfl⟩

/-- A logger signal whose persistence write fails in the sink model. -/
def poisonSig : AsyncSignal := .logger 5 (.append "poison" ("x", "y"))

/-- A logger signal whose persistence write succeeds in the sink model. -/
def okSig : AsyncSignal := .logger 6 (.append "trial" ("x", "y"))

/-- C4 counterexample: when the first logger signal's sink write fails, the
Async Processor thread dies on the `.unwrap()`: the following good signal is
never processed, no crash is reported to the server and no `AsyncComplete` is
pushed — the loop does not continue. -/
theorem C4_async_unwrap_counterexample :
    runAsync sinkUpd sinkFin [] [poisonSig, okSig, .finish]
      = ([], .died (.internalError "sink write failed")) := by
  rfl

/-- C4 amended: a runtime error from processing one Logger signal is
`.unwrap()`ed inside the Async Processor loop, so it terminates the thread:
subsequent signals are not processed and nothing is reported to the server;
only a successful update continues the loop, and only a clean exit (`Finish`
popped or the queue closed) flushes the logger and reports `AsyncComplete`. -/
theorem C4_async_error_kills_loop {L : Type}
    (upd : L → Nat → LoggerSignal → Except Err L) (fin : L → Except Err Unit)
    (lg : L) (t : Nat) (s : LoggerSignal) (rest : List AsyncSignal) :
    (∀ e, upd lg t s = .error e →
      runAsync upd fin lg (.logger t s :: rest) = ([], .died e)) ∧
    (∀ lg2, upd lg t s = .ok lg2 →
      runAsync upd fin lg (.logger t s :: rest)
        = (.logger t s :: (runAsync upd fin lg2 rest).1,
           (runAsync upd fin lg2 rest).2)) ∧
    runAsync upd fin lg [] = ([], .completed lg (fin lg)) ∧
    runAsync upd fin lg (.finish :: rest) = ([], .completed lg (fin lg)) := by
  refine ⟨?_, ?_, rfl, rfl⟩
  · intro e he
    simp [runAsync, he]
  · intro lg2 hok
    simp [runAsync, hok]

/-- Witness for C4 amended, at the accumulating sink that fails on the
"poison" group. -/
theorem C4_async_error_witness :
    runAsync sinkUpd sinkFin [] [poisonSig, okSig]
      = ([], .died (.internalError "sink write failed")) :=
  (C4_async_error_kills_loop sinkUpd sinkFin [] 5 (.append "poison" ("x", "y"))
      [okSig]).1 (.internalError "sink write failed") rfl

/-- C5: in a decode-loop iteration that reaches end-of-stream (an EOS message
on the bus, `is_eos` not yet set, no external stop): with `looping = false`
the `done` cell is set to `Ok(true)` during that iteration and the loop breaks
— no further iterations happen whatever environments follow; with
`looping = true`, `process_bus` restarts the stream and returns `Ok(false)`,
and the `done` cell is left at `Ok(false)`. -/
theorem C5_eos_done_or_restart (s : GStream) (env : IterEnv)
    (envs : List IterEnv) (heos : s.is_eos = false)
    (hbus : drainBus s.bus = (.ok true, []))
    (hstop : env.stopDisconnected = false) (hext : env.extSet = false) :
    (decodeLoop false (env :: envs) s (.ok false)).done = .ok true ∧
    (decodeLoop false (env :: envs) s (.ok false)).iters = 1 ∧
    (decodeLoop false (env :: envs) s (.ok false)).exit = .doneTrue ∧
    (s.process_bus true).1 = .ok false ∧
    (s.process_bus true).2.restarts = s.restarts + 1 ∧
    (decodeLoop true [env] s (.ok false)).done = .ok false ∧
    (decodeLoop true [env] s (.ok false)).exit = .fuelOut := by
  refine ⟨?_, ?_, ?_, ?_, ?_, ?_, ?_⟩ <;>
    simp [decodeLoop, GStream.eos, GStream.process_bus, GStream.restart,
      hbus, heos, hstop, hext, isOkTrue]

/-- Witness for C5 at a stream whose bus holds one EOS message. -/
theorem C5_eos_witness :
    (decodeLoop false [⟨false, false⟩] ⟨false, false, [.eosMsg], 0⟩
        (.ok false)).done = .ok true ∧
    ((⟨false, false, [.eosMsg], 0⟩ : GStream).process_bus true).1 = .ok false ∧
    (decodeLoop true [⟨false, false⟩] ⟨false, false, [.eosMsg], 0⟩
        (.ok false)).done = .ok false := by
  refine ⟨(C5_eos_done_or_restart ⟨false, false, [.eosMsg], 0⟩ ⟨false, false⟩ []
      rfl rfl rfl rfl).1, ?_, ?_⟩
  · exact (C5_eos_done_or_restart ⟨false, false, [.eosMsg], 0⟩ ⟨false, false⟩ []
      rfl rfl rfl rfl).2.2.2.1
  · exact (C5_eos_done_or_restart ⟨false, false, [.eosMsg], 0⟩ ⟨false, false⟩ []
      rfl rfl rfl rfl).2.2.2.2.2.1

/-- C6 counterexample: for a video stream at 8 frames per second, the decode
loop sleeps `0.5 / framerate = 1/16` seconds per iteration — half a frame
period — not the one-frame period `1/8` the claim states. -/
theorem C6_period_counterexample :
    decodePeriod true 8 = 1 / 16 ∧ decodePeriod true 8 ≠ 1 / 8 := by
  constructor <;> norm_num [decodePeriod]

/-- C6 amended: each decode-loop iteration first polls the stop channel
(non-blocking, before sleeping), then sleeps `0.5 / framerate` seconds (half a
frame period) when the stream has video or a fixed 5 ms when audio-only, and
then advances the decoder; when the poll reports disconnection the iteration
pauses the stream and exits without sleeping or advancing (the decoder state
and `done` cell are untouched). -/
theorem C6_poll_sleep_advance_order (fr : ℚ) (looping : Bool)
    (envs : List IterEnv) (s : GStream) (d : Except Err Bool) :
    iterSteps true fr false
      = [.pollStop, .sleepFor (1 / 2 / fr), .advanceDecoder] ∧
    iterSteps false fr false
      = [.pollStop, .sleepFor (5 / 1000), .advanceDecoder] ∧
    iterSteps true fr true = [.pollStop, .pauseStream] ∧
    (decodeLoop looping (⟨true, false⟩ :: envs) s d).stream
      = { s with paused := true } ∧
    (decodeLoop looping (⟨true, false⟩ :: envs) s d).done = d ∧
    (decodeLoop looping (⟨true, false⟩ :: envs) s d).exit = .stopDisconnect := by
  refine ⟨?_, ?_, ?_, ?_, ?_, ?_⟩ <;>
    simp [iterSteps, decodePeriod, decodeLoop]

/-- C7 counterexample: the fatal `exit(2)` fallback in `Drop` guards the
`stop` call, not the join: a failed join of the decode thread is handled by
the supervising thread, which writes an `InternalError` into the `done` cell
and does not exit the process; and `drop` on a started stream performs no
join at all — it only forces `done` to `Ok(true)` and never exits, since
`stop` cannot fail. -/
theorem C7_drop_join_counterexample :
    (superviseJoin (.joinFailed "thread panicked")).2.2 = false ∧
    (superviseJoin (.joinFailed "thread panicked")).1
      = .error (.internalError
          "Failed to graciously close stream decoder thread: thread panicked") ∧
    SStream.dropRun ⟨.ok false, none, none⟩ = (⟨.ok true, none, none⟩, false) := by
  exact ⟨rfl, rfl, rfl⟩

/-- C7 amended: dropping a started stream runs `stop`, which forces the shared
`done` cell to `Ok(true)` and never exits the process; the decode loop
observes the externally set `Ok(true)` on its next iteration and terminates;
the join is performed by the supervising thread spawned at `start`, which on a
failed join records an `InternalError` into the `done` cell (and still pushes
`UpdateGraph`) instead of exiting the process. -/
theorem C7_drop_stops_decode_loop (st : SStream) (looping : Bool)
    (envs : List IterEnv) (s : GStream) (d : Except Err Bool) (env : IterEnv)
    (m : String) (hstop : env.stopDisconnected = false)
    (hext : env.extSet = true) (heos : s.is_eos = false)
    (hbus : drainBus s.bus = (.ok false, [])) :
    st.dropRun = ({ st with done := .ok true }, false) ∧
    (decodeLoop looping (env :: envs) s d).done = .ok true ∧
    (decodeLoop looping (env :: envs) s d).iters = 1 ∧
    (decodeLoop looping (env :: envs) s d).exit = .doneTrue ∧
    (superviseJoin (.joinFailed m)).2.2 = false ∧
    (superviseJoin (.joinFailed m)).1
      = .error (.internalError
          ("Failed to graciously close stream decoder thread: " ++ m)) := by
  refine ⟨?_, ?_, ?_, ?_, rfl, rfl⟩ <;>
    simp [SStream.dropRun, SStream.stop, decodeLoop, GStream.eos,
      GStream.process_bus, hbus, heos, hstop, hext, isOkTrue]

/-- Witness for C7 amended: a started stream with a quiet bus, dropped while
its decode loop is running. -/
theorem C7_drop_witness :
    SStream.dropRun ⟨.ok false, none, none⟩ = (⟨.ok true, none, none⟩, false) ∧
    (decodeLoop false [⟨false, true⟩] ⟨false, false, [], 0⟩ (.ok false)).done
      = .ok true := by
  refine ⟨(C7_drop_stops_decode_loop ⟨.ok false, none, none⟩ false []
      ⟨false, false, [], 0⟩ (.ok false) ⟨false, true⟩ "m" rfl rfl rfl rfl).1, ?_⟩
  exact (C7_drop_stops_decode_loop ⟨.ok false, none, none⟩ false []
      ⟨false, false, [], 0⟩ (.ok false) ⟨false, true⟩ "m" rfl rfl rfl rfl).2.1

/-- C8: starting from an empty double-press state, two Escape presses whose
timestamps are strictly less than 300 ms apart make the tick entry point fire
exactly one interrupt (one "interrupt: user request" log append and one
`BlockInterrupted`), while two presses 300 ms or more apart (in particular
400 ms) fire none. -/
theorem C8_escape_double_press (t1 t2 : Nat) (_h1 : t1 ≤ t2) :
    (t2 - t1 < 300 →
      countInterrupts (runEscTicks none [(t1, true), (t2, true)]).2 = 1 ∧
      countInterruptLogs (runEscTicks none [(t1, true), (t2, true)]).2 = 1) ∧
    (300 ≤ t2 - t1 →
      countInterrupts (runEscTicks none [(t1, true), (t2, true)]).2 = 0 ∧
      countInterruptLogs (runEscTicks none [(t1, true), (t2, true)]).2 = 0) := by
  constructor
  · intro h
    constructor <;>
      simp [runEscTicks, escTick, h, countInterrupts, countInterruptLogs,
        request_interrupt_effects, isBlockInterrupted, isInterruptLog,
        List.countP_cons]
  · intro h
    have h2 : ¬ t2 - t1 < 300 := not_lt.2 h
    constructor <;>
      simp [runEscTicks, escTick, h2, countInterrupts, countInterruptLogs]

/-- Witness for C8: presses at 0 ms and 100 ms fire one interrupt; presses at
0 ms and 400 ms fire none. -/
theorem C8_escape_witness :
    countInterrupts (runEscTicks none [(0, true), (100, true)]).2 = 1 ∧
    countInterrupts (runEscTicks none [(0, true), (400, true)]).2 = 0 :=
  ⟨((C8_escape_double_press 0 100 (by decide)).1 (by decide)).1,
   ((C8_escape_double_press 0 400 (by decide)).2 (by decide)).1⟩

/-- C10: `StatefulStream::start` succeeds at most once: a successful call
consumes the one-shot link and the join handle (sending the start trigger and
spawning the supervisor exactly once), and any further `start` call returns an
`InternalError` without sending another trigger, without spawning anything and
without touching the state — in particular the shared `done` cell. -/
theorem C10_start_at_most_once (st st2 : SStream) (effs : List StartEffect)
    (h : st.start = (st2, effs, .ok ())) :
    effs = [.sendStartTrigger, .spawnSupervisor] ∧
    st2 = ⟨st.done, none, none⟩ ∧
    st2.start = (st2, [],
      .error (.internalError "Link to streaming thread could not be acquired")) ∧
    (st2.start).1.done = st.done := by
  obtain ⟨d, l, j⟩ := st
  cases l with
  | none => simp [SStream.start] at h
  | some u =>
      cases j with
      | none => simp [SStream.start] at h
      | some v =>
          simp [SStream.start] at h
          obtain ⟨h1, h2⟩ := h
          subst h1
          subst h2
          exact ⟨rfl, rfl, rfl, rfl⟩

/-- Witness for C10 at a freshly built stateful stream. -/
theorem C10_start_witness :
    ((⟨.ok false, none, none⟩ : SStream).start)
      = (⟨.ok false, none, none⟩, [],
         .error (.internalError "Link to streaming thread could not be acquired")) := by
  have h := C10_start_at_most_once ⟨.ok false, some (), some ()⟩
    ⟨.ok false, none, none⟩ [.sendStartTrigger, .spawnSupervisor] rfl
  exact h.2.2.1
